import Mathlib

/-!
A shallow embedding of the transaction-lifecycle core of the `hedera-sdk-js`
sample set, covering `TokenDissociateTransaction` (token/TokenDissociateTransaction.js)
and `ContractExecuteTransaction` (contract/ContractExecuteTransaction.ts),
together with the parts of the base `Transaction` / `TransactionBuilder`
machinery that those files use.  Definitions are translated from the source
files; the base-class operations absent from the sample set are modelled from
the specification and marked as such in their doc comments.
-/

namespace Hedera

/-! ## Identifier and value types -/

/-- Modelled from the spec: entity ids are immutable `{shard, realm, num}`
value types with string round-trip (`AccountId.js` is not in the sample set). -/
structure AccountId where
  shard : Nat
  realm : Nat
  num : Nat
deriving DecidableEq, Repr

/-- Modelled from the spec: token entity id, `{shard, realm, num}`
(`TokenId.js` is not in the sample set). -/
structure TokenId where
  shard : Nat
  realm : Nat
  num : Nat
deriving DecidableEq, Repr

/-- Modelled from the spec: contract entity id (`ContractId.ts` is not in the
sample set). -/
structure ContractId where
  shard : Nat
  realm : Nat
  contract : Nat
deriving DecidableEq, Repr

/-- Modelled from the spec: an Hbar amount (`Hbar.js` is not in the sample
set); `Hbar.mk n` embeds `new Hbar(n)`, an amount of `n` whole hbar. -/
structure Hbar where
  hbar : Int
deriving DecidableEq, Repr

/-- Modelled from the spec: `TransactionId = {accountId, validStart}`;
`validStart` is a timestamp, modelled as nanoseconds since epoch. -/
structure TransactionId where
  accountId : AccountId
  validStart : Nat
deriving DecidableEq, Repr

/-- Parses `"shard.realm.num"`.  Modelled from the spec: identifier types have
string/bytes round-trip; `EntityIdHelper.fromString` is not in the sample set. -/
def parseEntityTriple (s : String) : Nat × Nat × Nat :=
  match (s.splitOn ".").map (fun p => (p.toNat?).getD 0) with
  | [a, b, c] => (a, b, c)
  | _ => (0, 0, 0)

/-- Modelled from the spec: `TokenId.fromString`. -/
def TokenId.fromString (s : String) : TokenId :=
  let t := parseEntityTriple s
  ⟨t.1, t.2.1, t.2.2⟩

/-- Modelled from the spec: `AccountId.fromString`. -/
def AccountId.fromString (s : String) : AccountId :=
  let t := parseEntityTriple s
  ⟨t.1, t.2.1, t.2.2⟩

/-- `TokenId.prototype.clone` returns a value copy; on the immutable Lean
value this is the identity. -/
def TokenId.clone (t : TokenId) : TokenId := t

/-- `AccountId.prototype.clone` returns a value copy. -/
def AccountId.clone (a : AccountId) : AccountId := a

/-- The JS parameter type `TokenId | string` of `setTokenIds`. -/
inductive TokenIdLike where
  | str (s : String)
  | id (t : TokenId)
deriving DecidableEq, Repr

/-- The JS parameter type `AccountId | string` of `setAccountId`. -/
inductive AccountIdLike where
  | str (s : String)
  | id (a : AccountId)
deriving DecidableEq, Repr

/-- `typeof tokenId === "string" ? TokenId.fromString(tokenId) : tokenId.clone()`
(TokenDissociateTransaction.js, setTokenIds). -/
def resolveTokenIdLike : TokenIdLike → TokenId
  | .str s => TokenId.fromString s
  | .id t => t.clone

/-- `typeof accountId === "string" ? AccountId.fromString(accountId) : accountId.clone()`
(TokenDissociateTransaction.js, setAccountId). -/
def resolveAccountIdLike : AccountIdLike → AccountId
  | .str s => AccountId.fromString s
  | .id a => a.clone

/-! ## Protobuf wire structures -/

/-- `proto.ITokenID`. -/
structure ProtoTokenID where
  shardNum : Nat
  realmNum : Nat
  tokenNum : Nat
deriving DecidableEq, Repr

/-- `proto.IAccountID`. -/
structure ProtoAccountID where
  shardNum : Nat
  realmNum : Nat
  accountNum : Nat
deriving DecidableEq, Repr

/-- `proto.IContractID`. -/
structure ProtoContractID where
  shardNum : Nat
  realmNum : Nat
  contractNum : Nat
deriving DecidableEq, Repr

/-- Modelled from the spec: `TokenId[symbols.toProtobuf]` (TokenId.js is not in
the sample set; the codec maps the triple across faithfully). -/
def TokenId.toProtobuf (t : TokenId) : ProtoTokenID :=
  ⟨t.shard, t.realm, t.num⟩

/-- Modelled from the spec: `TokenId[symbols.fromProtobuf]`. -/
def TokenId.fromProtobuf (p : ProtoTokenID) : TokenId :=
  ⟨p.shardNum, p.realmNum, p.tokenNum⟩

/-- Modelled from the spec: `AccountId[symbols.toProtobuf]`. -/
def AccountId.toProtobuf (a : AccountId) : ProtoAccountID :=
  ⟨a.shard, a.realm, a.num⟩

/-- Modelled from the spec: `AccountId[symbols.fromProtobuf]`. -/
def AccountId.fromProtobuf (p : ProtoAccountID) : AccountId :=
  ⟨p.shardNum, p.realmNum, p.accountNum⟩

/-- Modelled from the spec: `ContractId._toProto` (ContractId.ts is not in the
sample set). -/
def ContractId.toProto (c : ContractId) : ProtoContractID :=
  ⟨c.shard, c.realm, c.contract⟩

/-- `proto.ITokenDissociateTransactionBody`: both fields are nullable
(`tokens`, `account`). -/
structure TokenDissociateTransactionBody where
  tokens : Option (List ProtoTokenID)
  account : Option ProtoAccountID
deriving DecidableEq, Repr

/-- Modelled from the spec: `proto.ITransactionBody` restricted to the fields
the sampled code touches — the transaction id, the addressed node, and the
kind-tagged `data` oneof, of which the sample set populates only the
`tokenDissociate` case. -/
structure TransactionBody where
  transactionID : Option TransactionId
  nodeAccountID : Option AccountId
  tokenDissociate : Option TokenDissociateTransactionBody
deriving DecidableEq, Repr

/-- `proto.ITransaction`: opaque serialized envelope. -/
structure ProtoTransaction where
  bodyBytes : List Nat
deriving DecidableEq, Repr

/-- `proto.ISignedTransaction`: body bytes plus a signature map. -/
structure ProtoSignedTransaction where
  bodyBytes : List Nat
  sigMap : List (List Nat × List Nat)
deriving DecidableEq, Repr

/-- `proto.ITransactionResponse`: the synchronous precheck acknowledgement. -/
structure ProtoTransactionResponse where
  nodeTransactionPrecheckCode : Nat
deriving DecidableEq, Repr

/-! ## Errors -/

/-- The typed failure outcomes of the client-side protocol (spec section 7). -/
inductive HederaError where
  | frozenTransactionError
  | transactionNotFrozenError
  | alreadyFrozenError
  | noNodeIdsAvailable
  | invalidChecksum (shard : Nat) (realm : Nat) (num : Nat)
  | unknownTransactionKind (tag : String)
  | validationError (errors : List String)
  | typeError (msg : String)
deriving DecidableEq, Repr

/-! ## Client context -/

/-- Modelled from the spec: the client context supplies the default node list
and the network-to-checksum mapping; `checksumValid` decides whether the
checksum carried by the entity id `{shard, realm, num}` matches the expected
value for the configured network. -/
structure Client where
  checksumValid : Nat → Nat → Nat → Bool
  networkNodes : List AccountId

/-- Modelled from the spec: `AccountId.prototype.validateChecksum(client)`
fails with `InvalidChecksumError` naming the offending id when the checksum
does not match the configured network. -/
def AccountId.validateChecksum (a : AccountId) (c : Client) : Except HederaError Unit :=
  if c.checksumValid a.shard a.realm a.num then .ok ()
  else .error (.invalidChecksum a.shard a.realm a.num)

/-- Modelled from the spec: `TokenId.prototype.validateChecksum(client)`. -/
def TokenId.validateChecksum (t : TokenId) (c : Client) : Except HederaError Unit :=
  if c.checksumValid t.shard t.realm t.num then .ok ()
  else .error (.invalidChecksum t.shard t.realm t.num)

/-! ## Base transaction state -/

/-- Modelled from the spec: the mutable state owned by the base `Transaction`
class (Transaction.js is not in the sample set): payload-independent fields —
the frozen flag, transaction ids (one per chunk), target node ids, stored
signed transactions, and the default maximum fee a subclass may install. -/
structure TransactionBase where
  frozen : Bool
  transactionIds : List TransactionId
  nodeAccountIds : List AccountId
  signedTransactions : List ProtoSignedTransaction
  cachedBodies : List TransactionBody
  defaultMaxTransactionFee : Option Hbar
deriving Repr

/-- Modelled from the spec: the state `super()` initializes — unfrozen, with
no ids, no nodes, no cached bodies and no subclass fee default installed. -/
def TransactionBase.init : TransactionBase :=
  { frozen := false
    transactionIds := []
    nodeAccountIds := []
    signedTransactions := []
    cachedBodies := []
    defaultMaxTransactionFee := none }

/-! ## TokenDissociateTransaction -/

/-- The state of a `TokenDissociateTransaction`: the base-class state plus the
two payload fields `_tokenIds : ?TokenId[]` and `_accountId : ?AccountId`. -/
structure TokenDissociateTransaction where
  tx : TransactionBase
  tokenIds : Option (List TokenId)
  accountId : Option AccountId
deriving Repr

namespace TokenDissociateTransaction

/-- Modelled from the spec: `Transaction.prototype[symbols.requireNotFrozen]`
throws `FrozenTransactionError` when the transaction is frozen. -/
def requireNotFrozen (t : TokenDissociateTransaction) : Except HederaError Unit :=
  if t.tx.frozen then .error .frozenTransactionError else .ok ()

/-- `setTokenIds(tokenIds)`: requires not frozen, then replaces `_tokenIds`
with the element-wise resolved copy of the argument. -/
def setTokenIds (t : TokenDissociateTransaction) (tokenIds : List TokenIdLike) :
    Except HederaError TokenDissociateTransaction := do
  t.requireNotFrozen
  pure { t with tokenIds := some (tokenIds.map resolveTokenIdLike) }

/-- `setAccountId(accountId)`: requires not frozen, then replaces `_accountId`. -/
def setAccountId (t : TokenDissociateTransaction) (accountId : AccountIdLike) :
    Except HederaError TokenDissociateTransaction := do
  t.requireNotFrozen
  pure { t with accountId := some (resolveAccountIdLike accountId) }

/-- The constructor's optional `props` object `{tokenIds?, accountId?}`. -/
structure Props where
  tokenIds : Option (List TokenIdLike)
  accountId : Option (AccountIdLike)
deriving Repr

/-- The `TokenDissociateTransaction(props = {})` constructor: calls `super()`,
initializes both payload fields to `null`, sets
`_defaultMaxTransactionFee = new Hbar(5)`, then applies each setter exactly
when the corresponding prop is non-null. -/
def create (props : Props) : Except HederaError TokenDissociateTransaction := do
  let t0 : TokenDissociateTransaction :=
    { tx := { TransactionBase.init with defaultMaxTransactionFee := some (Hbar.mk 5) }
      tokenIds := none
      accountId := none }
  let t1 ← match props.tokenIds with
    | some tk => t0.setTokenIds tk
    | none => pure t0
  let t2 ← match props.accountId with
    | some a => t1.setAccountId a
    | none => pure t1
  pure t2

/-- `[symbols.makeTransactionData]()`: projects the payload into the protobuf
body, mapping `null` fields to `null`. -/
def makeTransactionData (t : TokenDissociateTransaction) : TokenDissociateTransactionBody :=
  { tokens :=
      match t.tokenIds with
      | some ids => some (ids.map TokenId.toProtobuf)
      | none => none
    account :=
      match t.accountId with
      | some a => some a.toProtobuf
      | none => none }

/-- `[symbols.getTransactionDataCase]()` returns the discriminator tag this
class serializes under. -/
def getTransactionDataCase (_t : TokenDissociateTransaction) : String :=
  "tokenDissociate"

/-- Sequential checksum validation of a token-id list, short-circuiting at the
first failure (the `for ... of` loop body of `[symbols.validateChecksums]`). -/
def validateTokenList (c : Client) : List TokenId → Except HederaError Unit
  | [] => .ok ()
  | tk :: rest => do
    tk.validateChecksum c
    validateTokenList c rest

/-- `[symbols.validateChecksums](client)`: validates `_accountId` when
non-null, then every element of `_tokenIds` (treated as `[]` when null).
The source additionally skips `null` elements inside the list; in this typed
state list elements are never null. -/
def validateChecksums (t : TokenDissociateTransaction) (c : Client) :
    Except HederaError Unit := do
  match t.accountId with
  | some a => a.validateChecksum c
  | none => pure ()
  validateTokenList c (t.tokenIds.getD [])

/-- Modelled from the spec: `Transaction[symbols.fromProtobufTransactions]`
(Transaction.js is not in the sample set) installs the decoded transaction
ids, node ids and signed transactions on the freshly constructed transaction
and marks it frozen; it does not touch the subclass payload. -/
def fromProtobufTransactions (t : TokenDissociateTransaction)
    (_transactions : List ProtoTransaction)
    (signedTransactions : List ProtoSignedTransaction)
    (transactionIds : List TransactionId) (nodeIds : List AccountId)
    (bodies : List TransactionBody) : TokenDissociateTransaction :=
  { t with
      tx := { t.tx with
                frozen := true
                transactionIds := transactionIds
                nodeAccountIds := nodeIds
                signedTransactions := signedTransactions
                cachedBodies := bodies } }

/-- `static [symbols.fromProtobuf](transactions, signedTransactions,
transactionIds, nodeIds, bodies)`: reads `bodies[0].tokenDissociate` and
rebuilds the transaction from its fields via the constructor, then threads the
wire-level lists through `fromProtobufTransactions`.  The `.error .typeError`
branches model the JS `TypeError` thrown when `bodies` is empty or the first
body does not carry the `tokenDissociate` case. -/
def fromProtobuf (transactions : List ProtoTransaction)
    (signedTransactions : List ProtoSignedTransaction)
    (transactionIds : List TransactionId) (nodeIds : List AccountId)
    (bodies : List TransactionBody) :
    Except HederaError TokenDissociateTransaction := do
  match bodies.head? with
  | none => .error (.typeError "bodies[0] is undefined")
  | some body =>
    match body.tokenDissociate with
    | none => .error (.typeError "body.tokenDissociate is undefined")
    | some dissociateToken => do
      let t ← create
        { tokenIds :=
            match dissociateToken.tokens with
            | some tokens => some (tokens.map (fun token => .id (TokenId.fromProtobuf token)))
            | none => none
          accountId :=
            match dissociateToken.account with
            | some account => some (.id (AccountId.fromProtobuf account))
            | none => none }
      pure (t.fromProtobufTransactions transactions signedTransactions
        transactionIds nodeIds bodies)

end TokenDissociateTransaction

/-! ## Payload registry and wire round trip -/

/-- The signature shared by the registry's rehydration constructors. -/
def FromProtobufFn : Type :=
  List ProtoTransaction → List ProtoSignedTransaction → List TransactionId →
    List AccountId → List TransactionBody →
    Except HederaError TokenDissociateTransaction

/-- `TRANSACTION_REGISTRY` after module initialization: the module-level
`TRANSACTION_REGISTRY.set("tokenDissociate", TokenDissociateTransaction[symbols.fromProtobuf])`
call at the bottom of TokenDissociateTransaction.js has run. -/
def TRANSACTION_REGISTRY : List (String × FromProtobufFn) :=
  [("tokenDissociate", TokenDissociateTransaction.fromProtobuf)]

/-- The discriminator tag carried by a decoded body's `data` oneof, of which
the sample set populates only the `tokenDissociate` case. -/
def bodyDataCase (b : TransactionBody) : Option String :=
  if b.tokenDissociate.isSome then some "tokenDissociate" else none

/-- Modelled from the spec: `fromWire(decodedBodies, transactionIds, nodeIds)`
(Transaction.fromBytes is not in the sample set) reads the first body's
discriminator tag, looks it up in the payload registry — failing with
`UnknownTransactionKind` when no constructor is registered — and hands the
decoded lists to the registered constructor. -/
def fromWire (transactions : List ProtoTransaction)
    (signedTransactions : List ProtoSignedTransaction)
    (transactionIds : List TransactionId) (nodeIds : List AccountId)
    (bodies : List TransactionBody) :
    Except HederaError TokenDissociateTransaction :=
  match bodies.head? with
  | none => .error (.typeError "bodies[0] is undefined")
  | some body =>
    match bodyDataCase body with
    | none => .error (.unknownTransactionKind "")
    | some tag =>
      match TRANSACTION_REGISTRY.lookup tag with
      | none => .error (.unknownTransactionKind tag)
      | some ctor =>
        ctor transactions signedTransactions transactionIds nodeIds bodies

/-- Modelled from the spec: the decoded body for one (transactionId, nodeId)
pair — the payload data together with the pair addressing it. -/
def mkBodyFor (d : TokenDissociateTransactionBody) (tid : TransactionId)
    (nid : AccountId) : TransactionBody :=
  { transactionID := some tid, nodeAccountID := some nid, tokenDissociate := some d }

/-- Modelled from the spec: the body list of a frozen transaction — one body
per (transactionId chunk, nodeId) pair, every one carrying the same payload
data. -/
def buildBodies (d : TokenDissociateTransactionBody)
    (transactionIds : List TransactionId) (nodeIds : List AccountId) :
    List TransactionBody :=
  transactionIds.flatMap (fun tid => nodeIds.map (fun nid => mkBodyFor d tid nid))

/-- The decoded wire bodies of a transaction: deterministic in the
(payload, transactionIds, nodeIds) triple. -/
def TokenDissociateTransaction.wireBodies (t : TokenDissociateTransaction) :
    List TransactionBody :=
  buildBodies t.makeTransactionData t.tx.transactionIds t.tx.nodeAccountIds

/-- A deterministic, injective byte encoding of an optional value. -/
def encodeOption (f : α → List Nat) : Option α → List Nat
  | none => [0]
  | some x => 1 :: f x

/-- Length-prefixed encoding of a list. -/
def encodeList (f : α → List Nat) (l : List α) : List Nat :=
  l.length :: l.flatMap f

/-- Byte encoding of a `proto.ITokenID`. -/
def encodeProtoTokenID (p : ProtoTokenID) : List Nat :=
  [p.shardNum, p.realmNum, p.tokenNum]

/-- Byte encoding of a `proto.IAccountID`. -/
def encodeProtoAccountID (p : ProtoAccountID) : List Nat :=
  [p.shardNum, p.realmNum, p.accountNum]

/-- Byte encoding of a `TransactionId`. -/
def encodeTransactionId (i : TransactionId) : List Nat :=
  [i.accountId.shard, i.accountId.realm, i.accountId.num, i.validStart]

/-- Byte encoding of an `AccountId`. -/
def encodeAccountId (a : AccountId) : List Nat :=
  [a.shard, a.realm, a.num]

/-- Byte encoding of a `TokenDissociateTransactionBody`. -/
def encodeDissociateBody (d : TokenDissociateTransactionBody) : List Nat :=
  encodeOption (encodeList encodeProtoTokenID) d.tokens ++
    encodeOption encodeProtoAccountID d.account

/-- Modelled from the spec: the wire codec serializes a decoded body
deterministically and faithfully; any such codec produces byte-identical
output on structurally equal bodies, and this concrete one stands in for it. -/
def encodeBody (b : TransactionBody) : List Nat :=
  encodeOption encodeTransactionId b.transactionID ++
    encodeOption encodeAccountId b.nodeAccountID ++
    encodeOption encodeDissociateBody b.tokenDissociate

/-- Modelled from the spec: `toWireEnvelopes()` — one serialized envelope per
decoded body; a transaction carrying no signatures yields an empty signature
map in every envelope. -/
def TokenDissociateTransaction.toWireEnvelopes (t : TokenDissociateTransaction) :
    List ProtoSignedTransaction :=
  t.wireBodies.map (fun b => { bodyBytes := encodeBody b, sigMap := [] })

/-! ## Freeze -/

/-- Modelled from the spec: `freezeWith(nodeIds, client, transactionId)` —
fails with `AlreadyFrozenError` when already frozen; assigns the node ids from
the caller or, when the caller supplies none, from the client's default node
list, failing with `NoNodeIdsAvailable` when the resulting list is empty;
then assigns the transaction id, computes and caches the bodies, and flips
`frozen` to `true`. -/
def TokenDissociateTransaction.freezeWith (t : TokenDissociateTransaction)
    (nodeIds : List AccountId) (client : Option Client) (txId : TransactionId) :
    Except HederaError TokenDissociateTransaction :=
  if t.tx.frozen then .error .alreadyFrozenError
  else
    let nodes :=
      if nodeIds.isEmpty then
        match client with
        | some c => c.networkNodes
        | none => []
      else nodeIds
    if nodes.isEmpty then .error .noNodeIdsAvailable
    else
      let txIds := if t.tx.transactionIds.isEmpty then [txId] else t.tx.transactionIds
      .ok { t with
              tx := { t.tx with
                        frozen := true
                        transactionIds := txIds
                        nodeAccountIds := nodes
                        cachedBodies := buildBodies t.makeTransactionData txIds nodes } }

/-! ## Channel -/

/-- A record of one send over the channel: the service, the method name, and
the request handed to it. -/
structure ChannelCall where
  service : String
  method : String
  request : ProtoTransaction
deriving DecidableEq, Repr

/-- The token service face of a channel: one send operation per service
method name; each returns the acknowledgement together with the trace of
sends it performed. -/
structure TokenService where
  associateTokens : ProtoTransaction → ProtoTransactionResponse × List ChannelCall
  dissociateTokens : ProtoTransaction → ProtoTransactionResponse × List ChannelCall

/-- The crypto service face of a channel. -/
structure CryptoService where
  cryptoTransfer : ProtoTransaction → ProtoTransactionResponse × List ChannelCall

/-- An externally supplied transport exposing one send operation per service
method name. -/
structure Channel where
  token : TokenService
  crypto : CryptoService

/-- A channel whose every method answers with `respond` and traces the single
send it performs. -/
def mkTracedChannel (respond : ProtoTransaction → ProtoTransactionResponse) : Channel :=
  { token :=
      { associateTokens := fun r =>
          (respond r, [⟨"proto.TokenService", "associateTokens", r⟩])
        dissociateTokens := fun r =>
          (respond r, [⟨"proto.TokenService", "dissociateTokens", r⟩]) }
    crypto :=
      { cryptoTransfer := fun r =>
          (respond r, [⟨"proto.CryptoService", "cryptoTransfer", r⟩]) } }

/-- `[symbols.execute](channel, request)`: returns
`channel.token.dissociateTokens(request)`. -/
def TokenDissociateTransaction.executeChannel (_t : TokenDissociateTransaction)
    (channel : Channel) (request : ProtoTransaction) :
    ProtoTransactionResponse × List ChannelCall :=
  channel.token.dissociateTokens request

/-! ## ContractExecuteTransaction -/

/-- Modelled from the spec: the function-call parameter encoder
(`ContractFunctionParams.ts` is not in the sample set); it accumulates
encoded arguments and `_build(name)` pairs them with the function name. -/
structure ContractFunctionParams where
  args : List (List Nat)
deriving DecidableEq, Repr

/-- `new ContractFunctionParams()`: no arguments added. -/
def ContractFunctionParams.empty : ContractFunctionParams := ⟨[]⟩

/-- Modelled from the spec: `ContractFunctionParams._build(name)` encodes the
call data from the function name and the accumulated arguments. -/
def ContractFunctionParams.build (p : ContractFunctionParams) (name : String) :
    List Nat :=
  (name.data.map Char.toNat) ++ p.args.flatten

/-- `proto.ContractCallTransactionBody`: the fields the sampled setters
populate; every protobuf field is unset (`none`) until its setter runs. -/
structure ContractCallTransactionBody where
  gas : Option String
  amount : Option String
  functionparameters : Option (List Nat)
  contractid : Option ProtoContractID
deriving DecidableEq, Repr

/-- `new ContractCallTransactionBody()`. -/
def ContractCallTransactionBody.empty : ContractCallTransactionBody :=
  { gas := none, amount := none, functionparameters := none, contractid := none }

/-- The JS parameter type `Tinybar | Hbar` of `setPayableAmount`. -/
inductive TinybarOrHbar where
  | tinybar (n : Int)
  | hbar (h : Hbar)
deriving DecidableEq, Repr

/-- Modelled from the spec: `tinybarToString` (Tinybar.ts is not in the sample
set) renders the amount in tinybar (1 hbar = 100 000 000 tinybar). -/
def tinybarToString : TinybarOrHbar → String
  | .tinybar n => toString n
  | .hbar h => toString (h.hbar * 100000000)

/-- The state of a `ContractExecuteTransaction`: its `_body` protobuf message,
plus the frozen flag of the generic transaction state machine.  The flag is
modelled from the spec (the `TransactionBuilder` base class is not in the
sample set); the sampled setters consult no such flag. -/
structure ContractExecuteTransaction where
  frozen : Bool
  body : ContractCallTransactionBody
deriving Repr

namespace ContractExecuteTransaction

/-- `new ContractExecuteTransaction()`: a fresh, unfrozen builder with an
empty `ContractCallTransactionBody` installed as the inner transaction's
`contractCall` payload. -/
def create : ContractExecuteTransaction :=
  { frozen := false, body := ContractCallTransactionBody.empty }

/-- `setGas(gas)`: stores `String(gas)` into the body, unconditionally. -/
def setGas (t : ContractExecuteTransaction) (gas : Int) : ContractExecuteTransaction :=
  { t with body := { t.body with gas := some (toString gas) } }

/-- `setPayableAmount(amount)`: stores `tinybarToString(amount)`,
unconditionally. -/
def setPayableAmount (t : ContractExecuteTransaction) (amount : TinybarOrHbar) :
    ContractExecuteTransaction :=
  { t with body := { t.body with amount := some (tinybarToString amount) } }

/-- `setFunction(name, params)`: stores
`(params ?? new ContractFunctionParams())._build(name)`, unconditionally;
`none` models a null or undefined `params` argument. -/
def setFunction (t : ContractExecuteTransaction) (name : String)
    (params : Option ContractFunctionParams) : ContractExecuteTransaction :=
  { t with body := { t.body with
      functionparameters := some ((params.getD ContractFunctionParams.empty).build name) } }

/-- `setContractId(contractIdLike)`: stores
`new ContractId(contractIdLike)._toProto()`, unconditionally. -/
def setContractId (t : ContractExecuteTransaction) (c : ContractId) :
    ContractExecuteTransaction :=
  { t with body := { t.body with contractid := some c.toProto } }

/-- `_doValidate(errors)`: pushes `".setContractId() required"` exactly when
the body has no contract id, and touches nothing else. -/
def doValidate (t : ContractExecuteTransaction) (errors : List String) : List String :=
  if t.body.contractid.isNone then errors ++ [".setContractId() required"] else errors

/-- Modelled from the spec: the validation step `execute` runs before any
network call (`TransactionBuilder.validate` is not in the sample set) —
collect `_doValidate`'s errors into a fresh list and fail with
`ValidationError` exactly when that list is non-empty. -/
def validateBeforeExecute (t : ContractExecuteTransaction) : Except HederaError Unit :=
  let errors := t.doValidate []
  if errors.isEmpty then .ok () else .error (.validationError errors)

end ContractExecuteTransaction

/-- The payload (tokenIds, accountId) carried by a rehydration result, `none`
when rehydration failed. -/
def payloadOf (r : Except HederaError TokenDissociateTransaction) :
    Option (Option (List TokenId) × Option AccountId) :=
  match r with
  | .ok t => some (t.tokenIds, t.accountId)
  | .error _ => none

/-! ## Helper lemmas -/

@[simp]
theorem tokenId_proto_roundtrip (p : ProtoTokenID) :
    (TokenId.fromProtobuf p).toProtobuf = p := rfl

@[simp]
theorem accountId_proto_roundtrip (p : ProtoAccountID) :
    (AccountId.fromProtobuf p).toProtobuf = p := rfl

@[simp]
theorem resolveTokenIdLike_id (t : TokenId) : resolveTokenIdLike (.id t) = t := rfl

@[simp]
theorem resolveAccountIdLike_id (a : AccountId) : resolveAccountIdLike (.id a) = a := rfl

theorem registry_lookup_eq :
    TRANSACTION_REGISTRY.lookup "tokenDissociate" =
      some TokenDissociateTransaction.fromProtobuf := rfl

theorem TokenId.toProtobuf_comp_fromProtobuf :
    TokenId.toProtobuf ∘ TokenId.fromProtobuf = id := rfl

theorem create_eq (props : TokenDissociateTransaction.Props) :
    TokenDissociateTransaction.create props = .ok
      { tx := { TransactionBase.init with defaultMaxTransactionFee := some (Hbar.mk 5) }
        tokenIds := props.tokenIds.map (fun l => l.map resolveTokenIdLike)
        accountId := props.accountId.map resolveAccountIdLike } := by
  obtain ⟨tk, a⟩ := props
  cases tk <;> cases a <;> rfl

theorem fromProtobuf_eq (txs : List ProtoTransaction)
    (stxs : List ProtoSignedTransaction) (ids : List TransactionId)
    (nodes : List AccountId) (b0 : TransactionBody) (rest : List TransactionBody)
    (d : TokenDissociateTransactionBody) (hd : b0.tokenDissociate = some d) :
    TokenDissociateTransaction.fromProtobuf txs stxs ids nodes (b0 :: rest) = .ok
      { tx := { frozen := true
                transactionIds := ids
                nodeAccountIds := nodes
                signedTransactions := stxs
                cachedBodies := b0 :: rest
                defaultMaxTransactionFee := some (Hbar.mk 5) }
        tokenIds := d.tokens.map (fun l => l.map TokenId.fromProtobuf)
        accountId := d.account.map AccountId.fromProtobuf } := by
  obtain ⟨tks, acc⟩ := d
  cases tks <;> cases acc <;>
    simp [TokenDissociateTransaction.fromProtobuf, hd,
      TokenDissociateTransaction.create, TokenDissociateTransaction.setTokenIds,
      TokenDissociateTransaction.setAccountId,
      TokenDissociateTransaction.requireNotFrozen, TransactionBase.init,
      TokenDissociateTransaction.fromProtobufTransactions,
      Bind.bind, Except.bind, Pure.pure, Except.pure, List.map_map, Function.comp]

theorem fromProtobuf_reconstruct (txs : List ProtoTransaction)
    (stxs : List ProtoSignedTransaction) (ids : List TransactionId)
    (nodes : List AccountId) (bodies : List TransactionBody) (b : TransactionBody)
    (d : TokenDissociateTransactionBody)
    (hb : bodies.head? = some b) (hd : b.tokenDissociate = some d) :
    ∃ t, TokenDissociateTransaction.fromProtobuf txs stxs ids nodes bodies = .ok t ∧
      t.tokenIds = d.tokens.map (fun l => l.map TokenId.fromProtobuf) ∧
      t.accountId = d.account.map AccountId.fromProtobuf ∧
      t.makeTransactionData = d ∧
      t.tx.frozen = true ∧
      t.tx.transactionIds = ids ∧
      t.tx.nodeAccountIds = nodes ∧
      t.tx.signedTransactions = stxs ∧
      t.tx.cachedBodies = bodies ∧
      t.tx.defaultMaxTransactionFee = some (Hbar.mk 5) := by
  cases bodies with
  | nil => simp at hb
  | cons b0 rest =>
    simp only [List.head?_cons, Option.some.injEq] at hb
    subst hb
    refine ⟨_, fromProtobuf_eq txs stxs ids nodes b0 rest d hd, rfl, rfl, ?_,
      rfl, rfl, rfl, rfl, rfl, rfl⟩
    obtain ⟨tks, acc⟩ := d
    cases tks <;> cases acc <;>
      simp [TokenDissociateTransaction.makeTransactionData, List.map_map,
        TokenId.toProtobuf_comp_fromProtobuf]

theorem bodyDataCase_mkBodyFor (d : TokenDissociateTransactionBody)
    (tid : TransactionId) (nid : AccountId) :
    bodyDataCase (mkBodyFor d tid nid) = some "tokenDissociate" := rfl

theorem fromWire_cons_dissociate (txs : List ProtoTransaction)
    (stxs : List ProtoSignedTransaction) (ids : List TransactionId)
    (nodes : List AccountId) (b : TransactionBody) (rest : List TransactionBody)
    (hd : b.tokenDissociate.isSome = true) :
    fromWire txs stxs ids nodes (b :: rest) =
      TokenDissociateTransaction.fromProtobuf txs stxs ids nodes (b :: rest) := by
  simp [fromWire, bodyDataCase, hd, registry_lookup_eq]

theorem wireBodies_eq (t : TokenDissociateTransaction) (tid : TransactionId)
    (tids : List TransactionId) (nid : AccountId) (nids : List AccountId)
    (h1 : t.tx.transactionIds = tid :: tids) (h2 : t.tx.nodeAccountIds = nid :: nids) :
    t.wireBodies = mkBodyFor t.makeTransactionData tid nid ::
      (nids.map (mkBodyFor t.makeTransactionData tid) ++
        tids.flatMap (fun i => (nid :: nids).map (mkBodyFor t.makeTransactionData i))) := by
  simp [TokenDissociateTransaction.wireBodies, buildBodies, h1, h2]

theorem fromProtobuf_payload (txs : List ProtoTransaction)
    (stxs : List ProtoSignedTransaction) (ids : List TransactionId)
    (nodes : List AccountId) (bodies : List TransactionBody) :
    payloadOf (TokenDissociateTransaction.fromProtobuf txs stxs ids nodes bodies) =
      match bodies.head? with
      | none => none
      | some b =>
        match b.tokenDissociate with
        | none => none
        | some d =>
          some (d.tokens.map (fun l => l.map TokenId.fromProtobuf),
                d.account.map AccountId.fromProtobuf) := by
  cases bodies with
  | nil => rfl
  | cons b0 rest =>
    cases hbd : b0.tokenDissociate with
    | none =>
      simp only [TokenDissociateTransaction.fromProtobuf, List.head?_cons, hbd]
      rfl
    | some d =>
      obtain ⟨t, hok, htok, hacc, _⟩ :=
        fromProtobuf_reconstruct txs stxs ids nodes (b0 :: rest) b0 d
          (by simp) hbd
      rw [hok]
      simp [payloadOf, htok, hacc, List.head?_cons, hbd]

theorem validateTokenList_ok_iff (c : Client) (l : List TokenId) :
    TokenDissociateTransaction.validateTokenList c l = .ok () ↔
      ∀ tk ∈ l, c.checksumValid tk.shard tk.realm tk.num = true := by
  induction l with
  | nil => simp [TokenDissociateTransaction.validateTokenList]
  | cons tk rest ih =>
    by_cases h : c.checksumValid tk.shard tk.realm tk.num <;>
      simp [TokenDissociateTransaction.validateTokenList, TokenId.validateChecksum, h,
        Bind.bind, Except.bind, ih]

theorem validateTokenList_error (c : Client) (l : List TokenId) (e : HederaError) :
    TokenDissociateTransaction.validateTokenList c l = .error e →
      ∃ tk, tk ∈ l ∧ c.checksumValid tk.shard tk.realm tk.num = false ∧
        e = .invalidChecksum tk.shard tk.realm tk.num := by
  induction l with
  | nil => simp [TokenDissociateTransaction.validateTokenList]
  | cons tk rest ih =>
    by_cases h : c.checksumValid tk.shard tk.realm tk.num
    · intro he
      simp only [TokenDissociateTransaction.validateTokenList, TokenId.validateChecksum, h,
        if_true, Bind.bind, Except.bind] at he
      obtain ⟨tk', htk', hc, he'⟩ := ih he
      exact ⟨tk', List.mem_cons_of_mem _ htk', hc, he'⟩
    · intro he
      have hred : TokenDissociateTransaction.validateTokenList c (tk :: rest) =
          .error (.invalidChecksum tk.shard tk.realm tk.num) := by
        simp [TokenDissociateTransaction.validateTokenList, TokenId.validateChecksum, h,
          Bind.bind, Except.bind]
      rw [hred] at he
      simp only [Except.error.injEq] at he
      exact ⟨tk, List.mem_cons_self .., by simpa using h, he.symm⟩

/-! ## Claim theorems -/

/-- C1 (amended).  The `TokenDissociateTransaction` payload setters
(`setTokenIds`, `setAccountId`) fail with `FrozenTransactionError` — mutating
nothing — when the transaction is frozen, and succeed, replacing the targeted
payload field and nothing else, when it is not.  The
`ContractExecuteTransaction` setters (`setGas`, `setPayableAmount`,
`setFunction`, `setContractId`) perform no frozen check: each one
unconditionally overwrites its body field and succeeds, whether or not the
transaction is frozen. -/
theorem payload_setters_frozen_guard :
    (∀ (t : TokenDissociateTransaction) (l : List TokenIdLike),
        t.tx.frozen = true → t.setTokenIds l = .error .frozenTransactionError) ∧
    (∀ (t : TokenDissociateTransaction) (a : AccountIdLike),
        t.tx.frozen = true → t.setAccountId a = .error .frozenTransactionError) ∧
    (∀ (t : TokenDissociateTransaction) (l : List TokenIdLike),
        t.tx.frozen = false →
        t.setTokenIds l = .ok { t with tokenIds := some (l.map resolveTokenIdLike) }) ∧
    (∀ (t : TokenDissociateTransaction) (a : AccountIdLike),
        t.tx.frozen = false →
        t.setAccountId a = .ok { t with accountId := some (resolveAccountIdLike a) }) ∧
    (∀ (s : ContractExecuteTransaction) (g : Int),
        s.setGas g = { s with body := { s.body with gas := some (toString g) } }) ∧
    (∀ (s : ContractExecuteTransaction) (amt : TinybarOrHbar),
        s.setPayableAmount amt =
          { s with body := { s.body with amount := some (tinybarToString amt) } }) ∧
    (∀ (s : ContractExecuteTransaction) (n : String) (p : Option ContractFunctionParams),
        s.setFunction n p =
          { s with body := { s.body with
              functionparameters :=
                some ((p.getD ContractFunctionParams.empty).build n) } }) ∧
    (∀ (s : ContractExecuteTransaction) (c : ContractId),
        s.setContractId c =
          { s with body := { s.body with contractid := some c.toProto } }) := by
  refine ⟨?_, ?_, ?_, ?_, fun _ _ => rfl, fun _ _ => rfl, fun _ _ _ => rfl, fun _ _ => rfl⟩ <;>
    intro t x h <;>
    simp [TokenDissociateTransaction.setTokenIds, TokenDissociateTransaction.setAccountId,
      TokenDissociateTransaction.requireNotFrozen, h]

/-- C1 witness: a frozen transaction rejects `setTokenIds`. -/
theorem payload_setters_frozen_guard_witness :
    TokenDissociateTransaction.setTokenIds
        ⟨⟨true, [], [], [], [], none⟩, none, none⟩ [] =
      .error .frozenTransactionError :=
  payload_setters_frozen_guard.1 ⟨⟨true, [], [], [], [], none⟩, none, none⟩ [] rfl

/-- C1 counterexample: `ContractExecuteTransaction.setGas` invoked on a frozen
transaction does not fail and does mutate the payload, contradicting the
claim that every payload setter of both classes fails with
`FrozenTransactionError` on a frozen transaction. -/
theorem contract_setters_ignore_frozen_counterexample :
    (ContractExecuteTransaction.mk true ContractCallTransactionBody.empty).frozen = true ∧
    (ContractExecuteTransaction.setGas
        ⟨true, ContractCallTransactionBody.empty⟩ 100).body.gas = some "100" ∧
    (ContractExecuteTransaction.setGas
        ⟨true, ContractCallTransactionBody.empty⟩ 100).body ≠
      ContractCallTransactionBody.empty := by
  refine ⟨rfl, by decide, by decide⟩

/-- C3.  `validateChecksums` validates the checksum of the payload's
`accountId` when non-null and of every element of the `tokenIds` list (taken
as `[]` when null) against the client's network, and nothing else: it
succeeds exactly when all those checks pass, every failure is an
`InvalidChecksumError` naming one of those ids, and it trivially succeeds
when both payload fields are null. -/
theorem tokenDissociate_validateChecksums_spec (t : TokenDissociateTransaction)
    (c : Client) :
    (t.validateChecksums c = .ok () ↔
      ((∀ a, t.accountId = some a → c.checksumValid a.shard a.realm a.num = true) ∧
       (∀ tk ∈ t.tokenIds.getD [], c.checksumValid tk.shard tk.realm tk.num = true))) ∧
    (∀ e, t.validateChecksums c = .error e →
      (∃ a, t.accountId = some a ∧ c.checksumValid a.shard a.realm a.num = false ∧
        e = .invalidChecksum a.shard a.realm a.num) ∨
      (∃ tk, tk ∈ t.tokenIds.getD [] ∧ c.checksumValid tk.shard tk.realm tk.num = false ∧
        e = .invalidChecksum tk.shard tk.realm tk.num)) ∧
    (t.accountId = none → t.tokenIds = none → t.validateChecksums c = .ok ()) := by
  rcases ha : t.accountId with _ | a
  · refine ⟨?_, ?_, ?_⟩
    · simp [TokenDissociateTransaction.validateChecksums, ha, Bind.bind, Except.bind,
        Pure.pure, Except.pure, validateTokenList_ok_iff]
    · intro e he
      simp only [TokenDissociateTransaction.validateChecksums, ha, Bind.bind, Except.bind,
        Pure.pure, Except.pure] at he
      exact Or.inr (validateTokenList_error c _ e he)
    · intro _ h2
      simp [TokenDissociateTransaction.validateChecksums, ha, h2, Bind.bind, Except.bind,
        Pure.pure, Except.pure, TokenDissociateTransaction.validateTokenList]
  · by_cases hc : c.checksumValid a.shard a.realm a.num
    · refine ⟨?_, ?_, ?_⟩
      · simp [TokenDissociateTransaction.validateChecksums, ha, AccountId.validateChecksum,
          hc, Bind.bind, Except.bind, validateTokenList_ok_iff]
      · intro e he
        simp only [TokenDissociateTransaction.validateChecksums, ha,
          AccountId.validateChecksum, hc, if_true, Bind.bind, Except.bind] at he
        exact Or.inr (validateTokenList_error c _ e (by simpa using he))
      · intro h1
        simp at h1
    · refine ⟨?_, ?_, ?_⟩
      · simp [TokenDissociateTransaction.validateChecksums, ha, AccountId.validateChecksum,
          hc, Bind.bind, Except.bind]
      · intro e he
        have hred : t.validateChecksums c =
            .error (.invalidChecksum a.shard a.realm a.num) := by
          simp [TokenDissociateTransaction.validateChecksums, ha, AccountId.validateChecksum,
            hc, Bind.bind, Except.bind]
        rw [hred] at he
        simp only [Except.error.injEq] at he
        exact Or.inl ⟨a, rfl, by simpa using hc, he.symm⟩
      · intro h1
        simp at h1

/-- C3 witness: a transaction naming one account and one token, validated
against a client that accepts every checksum, succeeds. -/
theorem tokenDissociate_validateChecksums_spec_witness :
    TokenDissociateTransaction.validateChecksums
        ⟨TransactionBase.init, some [⟨0, 0, 9⟩], some ⟨0, 0, 4⟩⟩
        { checksumValid := fun _ _ _ => true, networkNodes := [] } = .ok () :=
  (tokenDissociate_validateChecksums_spec
      ⟨TransactionBase.init, some [⟨0, 0, 9⟩], some ⟨0, 0, 4⟩⟩
      { checksumValid := fun _ _ _ => true, networkNodes := [] }).1.mpr
    ⟨fun _ _ => rfl, by simp⟩

/-- C4.  `_doValidate` appends `".setContractId() required"` exactly when the
body carries no contract id and appends nothing else; the pre-network
validation step therefore fails with `ValidationError` exactly when the
contract id is missing. -/
theorem contractExecute_doValidate_spec (t : ContractExecuteTransaction)
    (errors : List String) :
    t.doValidate errors =
      errors ++ (if t.body.contractid = none then [".setContractId() required"] else []) ∧
    (t.validateBeforeExecute = .error (.validationError [".setContractId() required"]) ↔
      t.body.contractid = none) ∧
    (t.validateBeforeExecute = .ok () ↔ t.body.contractid ≠ none) := by
  rcases h : t.body.contractid with _ | c <;>
    simp [ContractExecuteTransaction.doValidate,
      ContractExecuteTransaction.validateBeforeExecute, h, Option.isNone]

/-- C4 witness: a builder with no contract id set fails validation with the
required-field error. -/
theorem contractExecute_doValidate_spec_witness :
    ContractExecuteTransaction.doValidate ⟨false, ContractCallTransactionBody.empty⟩ [] =
      [".setContractId() required"] :=
  (contractExecute_doValidate_spec ⟨false, ContractCallTransactionBody.empty⟩ []).1

/-- C6.  `freezeWith` invoked on an unfrozen transaction with an empty node
list and no client default nodes (no client at all, or a client whose network
list is empty) fails with `NoNodeIdsAvailable` and returns no transaction at
all: the caller's transaction keeps `frozen == false`, with no node ids, no
transaction id and no cached bodies assigned. -/
theorem freeze_empty_node_list_fails (t : TokenDissociateTransaction)
    (txId : TransactionId) (cv : Nat → Nat → Nat → Bool)
    (h : t.tx.frozen = false) :
    t.freezeWith [] none txId = .error .noNodeIdsAvailable ∧
    t.freezeWith [] (some { checksumValid := cv, networkNodes := [] }) txId =
      .error .noNodeIdsAvailable ∧
    (∀ t', t.freezeWith [] none txId ≠ .ok t') ∧
    t.tx.frozen = false := by
  refine ⟨?_, ?_, ?_, h⟩ <;>
    simp [TokenDissociateTransaction.freezeWith, h]

/-- C6 witness: a freshly constructed transaction cannot be frozen without
node ids. -/
theorem freeze_empty_node_list_fails_witness :
    TokenDissociateTransaction.freezeWith ⟨TransactionBase.init, none, none⟩ []
        none ⟨⟨0, 0, 0⟩, 0⟩ = .error .noNodeIdsAvailable :=
  (freeze_empty_node_list_fails ⟨TransactionBase.init, none, none⟩ ⟨⟨0, 0, 0⟩, 0⟩
    (fun _ _ _ => false) rfl).1

/-- C7.  The channel-execute operation of `TokenDissociateTransaction` performs
exactly one send, to `proto.TokenService.dissociateTokens`, passes the request
through unchanged, and returns the method's acknowledgement unchanged. -/
theorem executeChannel_single_dissociate_call (t : TokenDissociateTransaction)
    (respond : ProtoTransaction → ProtoTransactionResponse) (r : ProtoTransaction) :
    t.executeChannel (mkTracedChannel respond) r =
      (respond r, [⟨"proto.TokenService", "dissociateTokens", r⟩]) := rfl

/-- C7 witness: a concrete send through a traced channel. -/
theorem executeChannel_single_dissociate_call_witness :
    TokenDissociateTransaction.executeChannel ⟨TransactionBase.init, none, none⟩
        (mkTracedChannel (fun _ => ⟨0⟩)) ⟨[1, 2]⟩ =
      (⟨0⟩, [⟨"proto.TokenService", "dissociateTokens", ⟨[1, 2]⟩⟩]) :=
  executeChannel_single_dissociate_call ⟨TransactionBase.init, none, none⟩
    (fun _ => ⟨0⟩) ⟨[1, 2]⟩

/-- C9.  `setFunction` is total in its `params` argument: a null/undefined
`params` is replaced by a fresh empty `ContractFunctionParams`, and the
function-parameters field is built from the given name, for every state and
every function name. -/
theorem setFunction_null_params_total (t : ContractExecuteTransaction) (name : String) :
    t.setFunction name none = t.setFunction name (some ContractFunctionParams.empty) ∧
    (t.setFunction name none).body.functionparameters =
      some (ContractFunctionParams.empty.build name) := ⟨rfl, rfl⟩

/-- C9 witness: `setFunction` with a null `params` on a fresh builder. -/
theorem setFunction_null_params_total_witness :
    (ContractExecuteTransaction.setFunction ⟨false, ContractCallTransactionBody.empty⟩
        "get" none).body.functionparameters =
      some (ContractFunctionParams.empty.build "get") :=
  (setFunction_null_params_total ⟨false, ContractCallTransactionBody.empty⟩ "get").2

/-- C10.  Every construction path installs a default maximum transaction fee
of exactly 5 Hbar, and constructing from empty props leaves both payload
fields null. -/
theorem tokenDissociate_constructor_defaults :
    (∀ props : TokenDissociateTransaction.Props,
        ∃ t, TokenDissociateTransaction.create props = .ok t ∧
          t.tx.defaultMaxTransactionFee = some (Hbar.mk 5)) ∧
    (∃ t0, TokenDissociateTransaction.create ⟨none, none⟩ = .ok t0 ∧
        t0.tokenIds = none ∧ t0.accountId = none ∧
        t0.tx.defaultMaxTransactionFee = some (Hbar.mk 5)) := by
  constructor
  · rintro ⟨tk, a⟩
    cases tk <;> cases a <;> exact ⟨_, rfl, rfl⟩
  · exact ⟨_, rfl, rfl, rfl, rfl⟩

/-- C2.  Round trip: a signature-free transaction rehydrated from its decoded
wire bodies through the registry constructor serializes to byte-identical
envelopes; and at the payload level, for any well-formed decoded body list the
rehydrated transaction's `makeTransactionData` reproduces the first body's
`tokenDissociate` payload exactly, nulls included. -/
theorem tokenDissociate_wire_roundtrip :
    (∀ (t : TokenDissociateTransaction) (tid : TransactionId)
        (tids : List TransactionId) (nid : AccountId) (nids : List AccountId),
        t.tx.signedTransactions = [] →
        t.tx.transactionIds = tid :: tids →
        t.tx.nodeAccountIds = nid :: nids →
        ∃ t', fromWire [] [] t.tx.transactionIds t.tx.nodeAccountIds t.wireBodies =
            .ok t' ∧
          t'.wireBodies = t.wireBodies ∧
          t'.toWireEnvelopes = t.toWireEnvelopes) ∧
    (∀ (txs : List ProtoTransaction) (stxs : List ProtoSignedTransaction)
        (ids : List TransactionId) (nodes : List AccountId)
        (bodies : List TransactionBody) (b : TransactionBody)
        (d : TokenDissociateTransactionBody),
        bodies.head? = some b → b.tokenDissociate = some d →
        ∃ t'', TokenDissociateTransaction.fromProtobuf txs stxs ids nodes bodies =
            .ok t'' ∧ t''.makeTransactionData = d) := by
  constructor
  · intro t tid tids nid nids _hsig h1 h2
    have hw := wireBodies_eq t tid tids nid nids h1 h2
    have hhead : t.wireBodies.head? = some (mkBodyFor t.makeTransactionData tid nid) := by
      rw [hw]
      rfl
    obtain ⟨t', hok, _, _, hmtd, _, hids, hnodes, _, _, _⟩ :=
      fromProtobuf_reconstruct [] [] t.tx.transactionIds t.tx.nodeAccountIds
        t.wireBodies (mkBodyFor t.makeTransactionData tid nid) t.makeTransactionData
        hhead rfl
    have hfw : fromWire [] [] t.tx.transactionIds t.tx.nodeAccountIds t.wireBodies =
        TokenDissociateTransaction.fromProtobuf [] [] t.tx.transactionIds
          t.tx.nodeAccountIds t.wireBodies := by
      rw [hw]
      exact fromWire_cons_dissociate _ _ _ _ _ _ rfl
    have hwb : t'.wireBodies = t.wireBodies := by
      unfold TokenDissociateTransaction.wireBodies
      rw [hmtd, hids, hnodes]
    refine ⟨t', by rw [hfw]; exact hok, hwb, ?_⟩
    unfold TokenDissociateTransaction.toWireEnvelopes
    rw [hwb]
  · intro txs stxs ids nodes bodies b d hb hd
    obtain ⟨t'', hok, _, _, hmtd, _⟩ :=
      fromProtobuf_reconstruct txs stxs ids nodes bodies b d hb hd
    exact ⟨t'', hok, hmtd⟩

/-- C2 witness: a concrete single-body list round-trips through `fromProtobuf`
into a transaction whose payload projection reproduces it, null account
included. -/
theorem tokenDissociate_wire_roundtrip_witness :
    ∃ t'', TokenDissociateTransaction.fromProtobuf [] [] [] []
        [⟨none, none, some ⟨some [⟨1, 2, 3⟩], none⟩⟩] = .ok t'' ∧
      t''.makeTransactionData = ⟨some [⟨1, 2, 3⟩], none⟩ :=
  tokenDissociate_wire_roundtrip.2 [] [] [] []
    [⟨none, none, some ⟨some [⟨1, 2, 3⟩], none⟩⟩]
    ⟨none, none, some ⟨some [⟨1, 2, 3⟩], none⟩⟩ ⟨some [⟨1, 2, 3⟩], none⟩ rfl rfl

/-- C5.  The registry maps the tag `"tokenDissociate"` to
`TokenDissociateTransaction`'s rehydration constructor; that tag is exactly
the transaction-data case the class serializes under; looking the class's own
tag up never misses; and rehydrating any body list the class itself produces
never fails with `UnknownTransactionKind`. -/
theorem registry_owns_tokenDissociate_tag :
    TRANSACTION_REGISTRY.lookup "tokenDissociate" =
      some TokenDissociateTransaction.fromProtobuf ∧
    (∀ t : TokenDissociateTransaction, t.getTransactionDataCase = "tokenDissociate") ∧
    (∀ t : TokenDissociateTransaction,
        (TRANSACTION_REGISTRY.lookup t.getTransactionDataCase).isSome = true) ∧
    (∀ (t : TokenDissociateTransaction) (txs : List ProtoTransaction)
        (stxs : List ProtoSignedTransaction) (ids : List TransactionId)
        (nodes : List AccountId) (tid : TransactionId) (tids : List TransactionId)
        (nid : AccountId) (nids : List AccountId),
        t.tx.transactionIds = tid :: tids → t.tx.nodeAccountIds = nid :: nids →
        ∀ tag, fromWire txs stxs ids nodes t.wireBodies ≠
          .error (.unknownTransactionKind tag)) := by
  refine ⟨rfl, fun _ => rfl, fun _ => rfl, ?_⟩
  intro t txs stxs ids nodes tid tids nid nids h1 h2 tag hcontra
  have hw := wireBodies_eq t tid tids nid nids h1 h2
  have hhead : t.wireBodies.head? = some (mkBodyFor t.makeTransactionData tid nid) := by
    rw [hw]
    rfl
  obtain ⟨t', hok, _⟩ :=
    fromProtobuf_reconstruct txs stxs ids nodes t.wireBodies
      (mkBodyFor t.makeTransactionData tid nid) t.makeTransactionData hhead rfl
  have hfw : fromWire txs stxs ids nodes t.wireBodies =
      TokenDissociateTransaction.fromProtobuf txs stxs ids nodes t.wireBodies := by
    rw [hw]
    exact fromWire_cons_dissociate _ _ _ _ _ _ rfl
  rw [hfw, hok] at hcontra
  cases hcontra

/-- C5 witness: rehydrating the body list produced by a concrete frozen
transaction does not miss in the registry. -/
theorem registry_owns_tokenDissociate_tag_witness :
    fromWire [] [] [] []
        (TokenDissociateTransaction.wireBodies
          ⟨⟨true, [⟨⟨0, 0, 2⟩, 1⟩], [⟨0, 0, 3⟩], [], [], none⟩, none, none⟩) ≠
      .error (.unknownTransactionKind "tokenDissociate") :=
  registry_owns_tokenDissociate_tag.2.2.2
    ⟨⟨true, [⟨⟨0, 0, 2⟩, 1⟩], [⟨0, 0, 3⟩], [], [], none⟩, none, none⟩
    [] [] [] [] ⟨⟨0, 0, 2⟩, 1⟩ [] ⟨0, 0, 3⟩ [] rfl rfl "tokenDissociate"

/-- C8.  `fromProtobuf` rebuilds the payload from the first decoded body
alone: invocations agreeing at index 0 reconstruct identical payloads whatever
the other arguments hold, and the reconstructed payload is exactly the
projection of `bodies[0].tokenDissociate`. -/
theorem fromProtobuf_depends_on_first_body :
    (∀ (txs1 txs2 : List ProtoTransaction)
        (stxs1 stxs2 : List ProtoSignedTransaction)
        (ids1 ids2 : List TransactionId) (nodes1 nodes2 : List AccountId)
        (bodies1 bodies2 : List TransactionBody),
        bodies1.head? = bodies2.head? →
        payloadOf (TokenDissociateTransaction.fromProtobuf txs1 stxs1 ids1 nodes1 bodies1) =
          payloadOf (TokenDissociateTransaction.fromProtobuf txs2 stxs2 ids2 nodes2 bodies2)) ∧
    (∀ (txs : List ProtoTransaction) (stxs : List ProtoSignedTransaction)
        (ids : List TransactionId) (nodes : List AccountId)
        (bodies : List TransactionBody) (b : TransactionBody)
        (d : TokenDissociateTransactionBody),
        bodies.head? = some b → b.tokenDissociate = some d →
        ∃ t, TokenDissociateTransaction.fromProtobuf txs stxs ids nodes bodies = .ok t ∧
          t.tokenIds = d.tokens.map (fun l => l.map TokenId.fromProtobuf) ∧
          t.accountId = d.account.map AccountId.fromProtobuf) := by
  constructor
  · intro txs1 txs2 stxs1 stxs2 ids1 ids2 nodes1 nodes2 bodies1 bodies2 h
    rw [fromProtobuf_payload, fromProtobuf_payload, h]
  · intro txs stxs ids nodes bodies b d hb hd
    obtain ⟨t, hok, htok, hacc, _⟩ :=
      fromProtobuf_reconstruct txs stxs ids nodes bodies b d hb hd
    exact ⟨t, hok, htok, hacc⟩

/-- C8 witness: two invocations sharing only the first body — with different
transactions, signed transactions, ids, nodes and trailing bodies — rebuild
the same payload. -/
theorem fromProtobuf_depends_on_first_body_witness :
    payloadOf (TokenDissociateTransaction.fromProtobuf [] [] [] []
        [⟨none, none, some ⟨none, some ⟨0, 0, 4⟩⟩⟩]) =
      payloadOf (TokenDissociateTransaction.fromProtobuf [⟨[9]⟩] [⟨[1], []⟩]
        [⟨⟨0, 0, 8⟩, 5⟩] [⟨0, 0, 6⟩]
        [⟨none, none, some ⟨none, some ⟨0, 0, 4⟩⟩⟩, ⟨none, none, none⟩]) :=
  fromProtobuf_depends_on_first_body.1 [] [⟨[9]⟩] [] [⟨[1], []⟩] [] [⟨⟨0, 0, 8⟩, 5⟩]
    [] [⟨0, 0, 6⟩] [⟨none, none, some ⟨none, some ⟨0, 0, 4⟩⟩⟩]
    [⟨none, none, some ⟨none, some ⟨0, 0, 4⟩⟩⟩, ⟨none, none, none⟩] rfl

/-- C10 witness: construction with both props populated still yields the
5-Hbar default fee. -/
theorem tokenDissociate_constructor_defaults_witness :
    ∃ t, TokenDissociateTransaction.create
        ⟨some [.id ⟨0, 0, 7⟩], some (.id ⟨0, 0, 3⟩)⟩ = .ok t ∧
      t.tx.defaultMaxTransactionFee = some (Hbar.mk 5) :=
  tokenDissociate_constructor_defaults.1 ⟨some [.id ⟨0, 0, 7⟩], some (.id ⟨0, 0, 3⟩)⟩

end Hedera
